import Mathlib

/-!
Shallow embedding of the booking reservation and pricing engine of the
Vehicle-Rental backend (controllers/bookingController.js,
controllers/paymentController.js, models/Booking.js, models/Vehicle.js).

Timestamps are integer milliseconds since the epoch (JavaScript Date
values).  Monetary values and other JavaScript numbers that take part in
fractional arithmetic are modelled as rationals.
-/

namespace VehicleRental

-- Restore kernel reducibility of the rational-number primitives so that
-- concrete price computations can be settled by decide.
attribute [local semireducible] Rat.mul Rat.add Rat.sub Rat.inv Rat.ofScientific

/-- JavaScript Math.ceil on a rational. -/
def jsCeil (q : ℚ) : Int := ⌈q⌉

/-- JavaScript Math.round on a rational: halves round toward positive
infinity. -/
def jsRound (q : ℚ) : Int := ⌊q + 1 / 2⌋

/-- JavaScript remainder on integers: the sign follows the dividend. -/
def jsMod (a b : Int) : Int := if 0 ≤ a then a % b else -((-a) % b)

/-- Booking status enum of models/Booking.js. -/
inductive BookingStatus where
  | pending_payment
  | confirmed
  | checked_out
  | in_progress
  | completed
  | cancelled
  | no_show
  | driver_unavailable
  | refunded
deriving DecidableEq, Repr

/-- String rendering of a status, as it appears in response messages. -/
def statusName : BookingStatus → String
  | BookingStatus.pending_payment => "pending_payment"
  | BookingStatus.confirmed => "confirmed"
  | BookingStatus.checked_out => "checked_out"
  | BookingStatus.in_progress => "in_progress"
  | BookingStatus.completed => "completed"
  | BookingStatus.cancelled => "cancelled"
  | BookingStatus.no_show => "no_show"
  | BookingStatus.driver_unavailable => "driver_unavailable"
  | BookingStatus.refunded => "refunded"

/-- Booking type enum of models/Booking.js. -/
inductive BookingType where
  | self_drive
  | with_driver
deriving DecidableEq, Repr

/-- Requester role supplied by the auth middleware (req.user.role). -/
inductive Role where
  | customer
  | vendor
  | admin
deriving DecidableEq, Repr

/-- The priceBreakdown object built by calculateBookingPrice, together
with the duration object computed next to it. -/
structure PriceBreakdown where
  baseAmount : ℚ
  driverAmount : ℚ
  taxes : ℚ
  discount : ℚ
  deposit : ℚ
  totalPayable : ℚ
  durationDays : Int
  durationHours : Int
deriving DecidableEq, Repr

/-- Cancellation sub-record of models/Booking.js.  The cancellationFee
field is set by cancelBooking but left absent by updateBookingStatus. -/
structure Cancellation where
  cancelledBy : Role
  cancelledAtMs : Int
  cancellationFee : Option ℚ
  reason : String
deriving DecidableEq, Repr

/-- depositRefund.status enum of models/Booking.js. -/
inductive DepositRefundStatus where
  | pending
  | initiated
  | completed
  | rejected
deriving DecidableEq, Repr

/-- depositRefund sub-record of models/Booking.js. -/
structure DepositRefund where
  status : DepositRefundStatus
  amount : ℚ
deriving DecidableEq, Repr

/-- A booking document (the fields of models/Booking.js the booking flow
reads or writes). -/
structure Booking where
  bookingRef : String
  customer : Nat
  vendor : Nat
  vehicle : Nat
  pickupDatetime : Int
  dropoffDatetime : Int
  bookingType : BookingType
  status : BookingStatus
  priceBreakdown : PriceBreakdown
  cancellation : Option Cancellation
  depositRefund : Option DepositRefund
  notes : String
deriving DecidableEq, Repr

/-- Vehicle pricing sub-document of models/Vehicle.js. -/
structure VehiclePricing where
  baseDaily : ℚ
  weeklyDiscountPercent : ℚ
  monthlyDiscountPercent : ℚ
  extraHourCharge : ℚ
  depositAmount : ℚ
deriving DecidableEq, Repr

/-- Vendor blackout interval of models/Vehicle.js (availabilityBlocks).
The source field named end is rendered endMs. -/
structure AvailabilityBlock where
  start : Int
  endMs : Int
  reason : String
deriving DecidableEq, Repr

/-- A vehicle document (the fields the booking flow reads). -/
structure Vehicle where
  id : Nat
  vendorId : Nat
  pricing : VehiclePricing
  availabilityBlocks : List AvailabilityBlock
deriving DecidableEq, Repr

/-- PromoCode.discountType enum. -/
inductive DiscountType where
  | percentage
  | flat
deriving DecidableEq, Repr

/-- A promo-code document (the fields calculateBookingPrice reads).
maxDiscountAmount is none when the document lacks the field. -/
structure PromoCode where
  code : String
  isActive : Bool
  validFromMs : Int
  validTillMs : Int
  discountType : DiscountType
  discountValue : ℚ
  maxDiscountAmount : Option ℚ
deriving DecidableEq, Repr

/-- The document store visible to the booking flow. -/
structure Store where
  vehicles : List Vehicle
  promos : List PromoCode
  bookings : List Booking
deriving DecidableEq, Repr

/-- Booking.isVehicleAvailable of models/Booking.js: true iff no booking
for the vehicle whose status is confirmed, checked_out or in_progress has
pickup.datetime < end and dropoff.datetime > start. -/
def isVehicleAvailable (bookings : List Booking) (vehicleId : Nat)
    (startMs endMs : Int) : Bool :=
  !(bookings.any fun b =>
      b.vehicle == vehicleId &&
      (b.status == BookingStatus.confirmed ||
        b.status == BookingStatus.checked_out ||
        b.status == BookingStatus.in_progress) &&
      (decide (b.pickupDatetime < endMs) &&
        decide (b.dropoffDatetime > startMs)))

/-- The availabilityBlocks check of getBookingAvailability
(bookingController.js lines 169-171): block.start <= dropoff and
block.end >= pickup. -/
def hasAvailabilityBlock (blocks : List AvailabilityBlock)
    (pickupMs dropoffMs : Int) : Bool :=
  blocks.any fun block =>
    decide (block.start ≤ dropoffMs) && decide (block.endMs ≥ pickupMs)

/-- The combined availability answer of getBookingAvailability. -/
def bookingAvailable (bookings : List Booking)
    (blocks : List AvailabilityBlock) (vehicleId : Nat)
    (pickupMs dropoffMs : Int) : Bool :=
  isVehicleAvailable bookings vehicleId pickupMs dropoffMs &&
    !hasAvailabilityBlock blocks pickupMs dropoffMs

/-- Mongoose document save for a new booking: an unconditional insert,
guarded only by the unique index on bookingRef. -/
def bookingSave (bookings : List Booking) (b : Booking) :
    Except String (List Booking) :=
  if bookings.any fun existing => existing.bookingRef == b.bookingRef then
    Except.error "E11000 duplicate key"
  else
    Except.ok (bookings ++ [b])

/-- Modelled from the spec: the statuses the spec calls active, the ones
that occupy the vehicle's calendar (pending_payment, confirmed,
checked_out, in_progress). -/
def specActiveStatus (s : BookingStatus) : Bool :=
  s == BookingStatus.pending_payment ||
    s == BookingStatus.confirmed ||
    s == BookingStatus.checked_out ||
    s == BookingStatus.in_progress

/-- Vehicle.findById over the store. -/
def findVehicle (vehicles : List Vehicle) (vehicleId : Nat) : Option Vehicle :=
  vehicles.find? fun v => v.id == vehicleId

/-- PromoCode.findOne of calculateBookingPrice: matches the uppercased
code and requires isActive, validFrom <= now <= validTill. -/
def findPromo (promos : List PromoCode) (code : String) (nowMs : Int) :
    Option PromoCode :=
  promos.find? fun p =>
    p.code == code.toUpper && p.isActive &&
      decide (p.validFromMs ≤ nowMs) && decide (p.validTillMs ≥ nowMs)

/-- The price computation of calculateBookingPrice (bookingController.js
lines 37-118), as a pure function of the vehicle rate card, the window,
the driver flag and the promo document found (if any). -/
def computePrice (pricing : VehiclePricing) (pickupMs dropoffMs : Int)
    (withDriver : Bool) (promo : Option PromoCode) : PriceBreakdown :=
  let durationMs : Int := dropoffMs - pickupMs
  let durationHours : Int := jsCeil ((durationMs : ℚ) / (1000 * 60 * 60))
  let durationDays : Int := jsCeil ((durationHours : ℚ) / 24)
  let baseAmount0 : ℚ :=
    if 30 ≤ durationDays ∧ 0 < pricing.monthlyDiscountPercent then
      let monthlyRate := pricing.baseDaily * 30
      monthlyRate - monthlyRate * (pricing.monthlyDiscountPercent / 100)
    else if 7 ≤ durationDays ∧ 0 < pricing.weeklyDiscountPercent then
      let weeklyRate := pricing.baseDaily * 7
      weeklyRate - weeklyRate * (pricing.weeklyDiscountPercent / 100)
    else
      pricing.baseDaily * (durationDays : ℚ)
  let baseAmount : ℚ :=
    if 0 < jsMod durationHours 24 ∧ 0 < pricing.extraHourCharge then
      baseAmount0 + pricing.extraHourCharge * ((jsMod durationHours 24 : Int) : ℚ)
    else
      baseAmount0
  let driverAmount : ℚ := if withDriver then 100 * (durationHours : ℚ) else 0
  let taxes : ℚ := (baseAmount + driverAmount) * 0.18
  let depositAmount : ℚ := pricing.depositAmount
  let discount : ℚ :=
    match promo with
    | none => 0
    | some pc =>
      match pc.discountType with
      | DiscountType.percentage =>
        let d := baseAmount * (pc.discountValue / 100)
        -- JavaScript truthiness: an absent or zero maxDiscountAmount
        -- disables the cap
        match pc.maxDiscountAmount with
        | some cap => if cap ≠ 0 ∧ cap < d then cap else d
        | none => d
      | DiscountType.flat => pc.discountValue
  let totalPayable : ℚ :=
    baseAmount + driverAmount + taxes + depositAmount - discount
  { baseAmount := baseAmount
    driverAmount := driverAmount
    taxes := (jsRound taxes : ℚ)
    discount := (jsRound discount : ℚ)
    deposit := depositAmount
    totalPayable := (jsRound totalPayable : ℚ)
    durationDays := durationDays
    durationHours := durationHours }

/-- Request body of the POST /bookings/price handler. -/
structure PriceBody where
  vehicleId : Option Nat
  pickupDateTime : Option Int
  dropoffDateTime : Option Int
  promoCode : Option String
  bookingType : BookingType
  driverRequired : Bool
deriving DecidableEq, Repr

/-- Outcome of the calculateBookingPrice handler.  thrown models an
exception escaping the handler: when it is invoked without an HTTP
request object, req.body is undefined, destructuring it throws, and the
catch block rethrows by reading res.status of the undefined res. -/
inductive PriceOutcome where
  | ok (breakdown : PriceBreakdown) (promoFound : Option PromoCode)
  | badRequest (msg : String)
  | notFound (msg : String)
  | thrown
deriving DecidableEq, Repr

/-- The calculateBookingPrice handler (bookingController.js lines
11-140).  The first argument position carries req.body, which is none
when the function is invoked with a plain options object instead of an
Express request. -/
def calculateBookingPrice (vehicles : List Vehicle)
    (promos : List PromoCode) (nowMs : Int) (body : Option PriceBody) :
    PriceOutcome :=
  match body with
  | none => PriceOutcome.thrown
  | some b =>
    match b.vehicleId, b.pickupDateTime, b.dropoffDateTime with
    | some vid, some pickupMs, some dropoffMs =>
      match findVehicle vehicles vid with
      | none => PriceOutcome.notFound "Vehicle not found"
      | some v =>
        let promoFound : Option PromoCode :=
          match b.promoCode with
          | some code => findPromo promos code nowMs
          | none => none
        let withDriver : Bool :=
          b.bookingType == BookingType.with_driver || b.driverRequired
        PriceOutcome.ok
          (computePrice v.pricing pickupMs dropoffMs withDriver promoFound)
          promoFound
    | _, _, _ =>
      PriceOutcome.badRequest
        "Vehicle ID, pickup date, and dropoff date are required"

/-- Request body of the POST /bookings handler.  The pickup and dropoff
objects are collapsed to their datetime fields; none models a missing
field. -/
structure CreateReq where
  userId : Nat
  vehicleId : Option Nat
  pickupDatetime : Option Int
  dropoffDatetime : Option Int
  bookingType : Option BookingType
  driverId : Option Nat
  promoCode : Option String
  notes : String
deriving DecidableEq, Repr

/-- Outcome of the createBooking handler. -/
inductive CreateOutcome where
  | created (b : Booking)
  | badRequest (msg : String)
  | notFound (msg : String)
  | serverError
deriving DecidableEq, Repr

/-- The createBooking handler (bookingController.js lines 196-304).
freshRef stands for the generated BOOK_ reference.  Line 237 invokes the
calculateBookingPrice handler with a plain options object, so the
handler sees req.body undefined (the none argument below); the resulting
exception is caught by createBooking's try/catch, which answers HTTP
500.  The arms below the thrown one translate the remaining source lines
and are unreachable at this call site. -/
def createBooking (store : Store) (nowMs : Int) (freshRef : String)
    (req : CreateReq) : CreateOutcome × Store :=
  match req.vehicleId, req.pickupDatetime, req.dropoffDatetime with
  | some vid, some pickupMs, some dropoffMs =>
    match findVehicle store.vehicles vid with
    | none => (CreateOutcome.notFound "Vehicle not found", store)
    | some vehicle =>
      if isVehicleAvailable store.bookings vid pickupMs dropoffMs then
        match calculateBookingPrice store.vehicles store.promos nowMs none with
        | PriceOutcome.thrown => (CreateOutcome.serverError, store)
        | PriceOutcome.badRequest m => (CreateOutcome.badRequest m, store)
        | PriceOutcome.notFound m => (CreateOutcome.notFound m, store)
        | PriceOutcome.ok breakdown _promoFound =>
          let booking : Booking :=
            { bookingRef := freshRef
              customer := req.userId
              vendor := vehicle.vendorId
              vehicle := vid
              pickupDatetime := pickupMs
              dropoffDatetime := dropoffMs
              bookingType := req.bookingType.getD BookingType.self_drive
              status := BookingStatus.pending_payment
              priceBreakdown := breakdown
              cancellation := none
              depositRefund := none
              notes := req.notes }
          match bookingSave store.bookings booking with
          | Except.ok bs =>
            (CreateOutcome.created booking, { store with bookings := bs })
          | Except.error _ => (CreateOutcome.serverError, store)
      else
        (CreateOutcome.badRequest
          "Vehicle is not available for the selected dates", store)
  | _, _, _ =>
    (CreateOutcome.badRequest
      "Vehicle ID, pickup, and dropoff details are required", store)

/-- Outcome of the cancelBooking handler. -/
inductive CancelOutcome where
  | ok (cancellationFee refundAmount : ℚ)
  | forbidden (msg : String)
  | invalidState (msg : String)
deriving DecidableEq, Repr

/-- The cancelBooking handler (bookingController.js lines 486-562) on a
booking found in the store: access check, cancellable-status guard,
time-tiered cancellation fee, state update, and the reported fee and
refund amount (totalPayable - cancellationFee). -/
def cancelBooking (role : Role) (requesterId : Nat) (nowMs : Int)
    (reason : String) (b : Booking) : CancelOutcome × Booking :=
  if role = Role.customer ∧ b.customer ≠ requesterId then
    (CancelOutcome.forbidden "Access denied", b)
  else if ¬(b.status = BookingStatus.pending_payment ∨
      b.status = BookingStatus.confirmed) then
    (CancelOutcome.invalidState
      ("Booking cannot be cancelled in " ++ statusName b.status ++ " status"),
      b)
  else
    let hoursUntilPickup : ℚ :=
      ((b.pickupDatetime - nowMs : Int) : ℚ) / (1000 * 60 * 60)
    let cancellationFee : ℚ :=
      if hoursUntilPickup < 24 then b.priceBreakdown.baseAmount * 0.5
      else if hoursUntilPickup < 48 then b.priceBreakdown.baseAmount * 0.25
      else 0
    let c : Cancellation :=
      { cancelledBy := role
        cancelledAtMs := nowMs
        cancellationFee := some cancellationFee
        reason := reason }
    let cancelled : Booking :=
      { b with
          status := BookingStatus.cancelled
          cancellation := some c }
    (CancelOutcome.ok cancellationFee
      (b.priceBreakdown.totalPayable - cancellationFee), cancelled)

/-- Outcome of the updateBookingStatus handler. -/
inductive UpdateOutcome where
  | ok (b : Booking)
  | forbidden (msg : String)
deriving DecidableEq, Repr

/-- The updateBookingStatus handler (bookingController.js lines 417-483)
on a booking found in the store.  requesterOwnsBooking is the vendor
ownership comparison; the requested status is applied without any
transition validation. -/
def updateBookingStatus (role : Role) (requesterOwnsBooking : Bool)
    (newStatus : BookingStatus) (nowMs : Int) (reason : String)
    (b : Booking) : UpdateOutcome :=
  if role = Role.vendor ∧ requesterOwnsBooking = false then
    UpdateOutcome.forbidden "Access denied"
  else
    let b1 := { b with status := newStatus }
    let b2 :=
      if newStatus = BookingStatus.cancelled then
        let c : Cancellation :=
          { cancelledBy := role
            cancelledAtMs := nowMs
            cancellationFee := none
            reason := reason }
        { b1 with cancellation := some c }
      else if newStatus = BookingStatus.completed then
        if 0 < b.priceBreakdown.deposit then
          let dr : DepositRefund :=
            { status := DepositRefundStatus.pending
              amount := b.priceBreakdown.deposit }
          { b1 with depositRefund := some dr }
        else b1
      else b1
    UpdateOutcome.ok b2

/-- The booking-status update of verifyPayment (paymentController.js
lines 185-238): confirmed when the gateway reports the payment captured,
pending_payment otherwise, regardless of the booking's current
status. -/
def verifyPaymentBookingUpdate (captured : Bool) (b : Booking) : Booking :=
  if captured then { b with status := BookingStatus.confirmed }
  else { b with status := BookingStatus.pending_payment }

/-- Status carried by an updateBookingStatus outcome, none on access
denial. -/
def updateResultStatus : UpdateOutcome → Option BookingStatus
  | UpdateOutcome.ok b => some b.status
  | UpdateOutcome.forbidden _ => none

/-- Whether a pricing outcome carries a price breakdown. -/
def returnsBreakdown : PriceOutcome → Bool
  | PriceOutcome.ok _ _ => true
  | _ => false

/-- The gross total before the promo discount, read off the breakdown
computePrice produces with no promotion. -/
def grossTotal (pricing : VehiclePricing) (pickupMs dropoffMs : Int)
    (withDriver : Bool) : ℚ :=
  let bd := computePrice pricing pickupMs dropoffMs withDriver none
  bd.baseAmount + bd.driverAmount +
    (bd.baseAmount + bd.driverAmount) * 0.18 + bd.deposit

/-! Concrete fixtures used by the theorems below. -/

/-- An all-zero price breakdown. -/
def pbZero : PriceBreakdown :=
  { baseAmount := 0, driverAmount := 0, taxes := 0, discount := 0,
    deposit := 0, totalPayable := 0, durationDays := 0, durationHours := 0 }

/-- A pending_payment booking of vehicle 1 over the window
[0 ms, 7200000 ms). -/
def c1BookingA : Booking :=
  { bookingRef := "BOOK_A", customer := 1, vendor := 1, vehicle := 1,
    pickupDatetime := 0, dropoffDatetime := 7200000,
    bookingType := BookingType.self_drive,
    status := BookingStatus.pending_payment,
    priceBreakdown := pbZero, cancellation := none, depositRefund := none,
    notes := "" }

/-- A second booking of vehicle 1 over the overlapping window
[3600000 ms, 10800000 ms). -/
def c1BookingB : Booking :=
  { c1BookingA with
      bookingRef := "BOOK_B"
      pickupDatetime := 3600000
      dropoffDatetime := 10800000 }

/-- The first booking after payment confirmation. -/
def c1BookingC : Booking :=
  { c1BookingA with
      bookingRef := "BOOK_C"
      status := BookingStatus.confirmed }

/-- C1: the claim says the reservation commit re-verifies, within the
same atomic operation as the insert, that no active overlapping
reservation exists, so at most one of two overlapping requests succeeds.
In the code the commit path of createBooking is the isVehicleAvailable
read (line 228) followed by an unconditional booking.save (line 278).
Replaying that path for two overlapping requests on vehicle 1, even one
after the other: the first request passes the check and inserts; the
second request still passes the check, because the inserted reservation
is in pending_payment, a status the query ignores; its insert is
accepted as well, leaving two overlapping reservations that are active
in the spec's sense.  Moreover the insert performs no re-verification at
all: it succeeds even against a confirmed overlapping reservation the
availability check does report as a conflict. -/
theorem c1_commit_inserts_without_reverification :
    isVehicleAvailable [] 1 0 7200000 = true ∧
    bookingSave [] c1BookingA = Except.ok [c1BookingA] ∧
    isVehicleAvailable [c1BookingA] 1 3600000 10800000 = true ∧
    bookingSave [c1BookingA] c1BookingB = Except.ok [c1BookingA, c1BookingB] ∧
    specActiveStatus c1BookingA.status = true ∧
    specActiveStatus c1BookingB.status = true ∧
    c1BookingA.vehicle = c1BookingB.vehicle ∧
    c1BookingB.pickupDatetime < c1BookingA.dropoffDatetime ∧
    c1BookingA.pickupDatetime < c1BookingB.dropoffDatetime ∧
    isVehicleAvailable [c1BookingC] 1 3600000 10800000 = false ∧
    bookingSave [c1BookingC] c1BookingB = Except.ok [c1BookingC, c1BookingB] := by
  refine ⟨by decide, rfl, by decide, rfl, by decide, by decide, by decide, by decide, by decide, by decide, rfl⟩

/-- A pending_payment booking of vehicle 1 over [0, 7200000). -/
def c3Booking : Booking :=
  { bookingRef := "BOOK_P", customer := 2, vendor := 1, vehicle := 1,
    pickupDatetime := 0, dropoffDatetime := 7200000,
    bookingType := BookingType.self_drive,
    status := BookingStatus.pending_payment,
    priceBreakdown := pbZero, cancellation := none, depositRefund := none,
    notes := "" }

/-- C3 counterexample: a reservation in pending_payment whose window
overlaps the requested one does not make the availability check report
the vehicle unavailable — isVehicleAvailable answers true even though
the stored booking overlaps [3600000, 10800000) on the same vehicle. -/
theorem c3_pending_payment_does_not_block :
    c3Booking.status = BookingStatus.pending_payment ∧
    c3Booking.vehicle = 1 ∧
    c3Booking.pickupDatetime < 10800000 ∧
    3600000 < c3Booking.dropoffDatetime ∧
    isVehicleAvailable [c3Booking] 1 3600000 10800000 = true := by
  refine ⟨rfl, rfl, by decide, by decide, rfl⟩

/-- A blackout block ending exactly at the requested pickup instant. -/
def c4Block : AvailabilityBlock :=
  { start := -3600000, endMs := 0, reason := "maintenance" }

/-- C4 counterexample: the blackout-block test is not the half-open
reservation test.  A block that merely touches the requested window
(block.end = pickup) is counted as a conflict: hasAvailabilityBlock is
true and getBookingAvailability reports the vehicle unavailable, while
the claim says back-to-back windows are reported available for blackout
blocks too. -/
theorem c4_touching_blackout_blocks :
    c4Block.endMs = 0 ∧
    hasAvailabilityBlock [c4Block] 0 3600000 = true ∧
    bookingAvailable [] [c4Block] 1 0 3600000 = false := by
  refine ⟨rfl, rfl, rfl⟩

/-- A completed booking with a zero-deposit breakdown. -/
def c5Booking : Booking :=
  { bookingRef := "BOOK_T", customer := 3, vendor := 1, vehicle := 1,
    pickupDatetime := 0, dropoffDatetime := 7200000,
    bookingType := BookingType.self_drive,
    status := BookingStatus.completed,
    priceBreakdown := pbZero, cancellation := none, depositRefund := none,
    notes := "" }

/-- C5 counterexample: the privileged status-update endpoint moves a
completed (terminal) reservation back to confirmed, and the
payment-verification callback sets a cancelled (terminal) reservation to
confirmed — both transition out of terminal states. -/
theorem c5_terminal_state_escaped :
    c5Booking.status = BookingStatus.completed ∧
    updateBookingStatus Role.admin true BookingStatus.confirmed 0 "" c5Booking =
      UpdateOutcome.ok { c5Booking with status := BookingStatus.confirmed } ∧
    verifyPaymentBookingUpdate true
        { c5Booking with status := BookingStatus.cancelled } =
      { c5Booking with status := BookingStatus.confirmed } := by
  refine ⟨rfl, rfl, rfl⟩

/-- A vehicle with a plain rate card and a 500-unit deposit. -/
def c8Vehicle : Vehicle :=
  { id := 1, vendorId := 1,
    pricing :=
      { baseDaily := 1000, weeklyDiscountPercent := 0,
        monthlyDiscountPercent := 0, extraHourCharge := 0,
        depositAmount := 500 },
    availabilityBlocks := [] }

/-- A pricing request whose dropoff equals its pickup (zero duration). -/
def c8Body : PriceBody :=
  { vehicleId := some 1, pickupDateTime := some 0, dropoffDateTime := some 0,
    promoCode := none, bookingType := BookingType.self_drive,
    driverRequired := false }

/-- C8 counterexample: a request with a non-positive window (dropoff =
pickup) is not rejected with a validation error — calculateBookingPrice
returns a success breakdown (zero amounts plus the deposit). -/
theorem c8_nonpositive_window_returns_breakdown :
    c8Body.dropoffDateTime = c8Body.pickupDateTime ∧
    calculateBookingPrice [c8Vehicle] [] 0 (some c8Body) =
      PriceOutcome.ok
        { baseAmount := 0, driverAmount := 0, taxes := 0, discount := 0,
          deposit := 500, totalPayable := 500, durationDays := 0,
          durationHours := 0 } none := by
  exact ⟨rfl, by decide⟩

/-- A rate card with no discounts and no deposit. -/
def c9Pricing : VehiclePricing :=
  { baseDaily := 1000, weeklyDiscountPercent := 0,
    monthlyDiscountPercent := 0, extraHourCharge := 0, depositAmount := 0 }

/-- A flat promotion whose value exceeds any one-day total. -/
def c9Promo : PromoCode :=
  { code := "BIG", isActive := true, validFromMs := 0,
    validTillMs := 2000000000000, discountType := DiscountType.flat,
    discountValue := 100000, maxDiscountAmount := none }

/-- C9 counterexample: with a flat discount of 100000 on a one-day
rental totalling 1180 gross, the stored totalPayable is -98820 — the
discount is not clamped and the total goes negative. -/
theorem c9_flat_discount_negative_total :
    c9Promo.discountType = DiscountType.flat ∧
    (computePrice c9Pricing 0 86400000 false (some c9Promo)).totalPayable =
      -98820 ∧
    (computePrice c9Pricing 0 86400000 false (some c9Promo)).totalPayable < 0 := by
  refine ⟨rfl, by decide, by decide⟩

/-- Vehicle fixture for the createBooking theorems. -/
def c2Vehicle : Vehicle :=
  { id := 1, vendorId := 4,
    pricing :=
      { baseDaily := 1000, weeklyDiscountPercent := 0,
        monthlyDiscountPercent := 0, extraHourCharge := 0,
        depositAmount := 0 },
    availabilityBlocks := [] }

/-- Store with one vehicle and no bookings. -/
def c2Store : Store := { vehicles := [c2Vehicle], promos := [], bookings := [] }

/-- A fully populated reservation request for vehicle 1. -/
def c2Req : CreateReq :=
  { userId := 7, vehicleId := some 1, pickupDatetime := some 0,
    dropoffDatetime := some 3600000, bookingType := none, driverId := none,
    promoCode := none, notes := "" }

/-- C2: for every request whose required fields are present, whose
vehicle exists and whose window passes the availability check,
createBooking answers an internal server error and persists nothing: the
pricing step invokes the calculateBookingPrice handler with a plain
options object, the handler throws on the undefined req.body, and
createBooking's catch returns HTTP 500 before any save. -/
theorem c2_createBooking_internal_error :
    ∀ (store : Store) (nowMs : Int) (freshRef : String) (req : CreateReq)
      (vid : Nat) (pickupMs dropoffMs : Int) (v : Vehicle),
      req.vehicleId = some vid →
      req.pickupDatetime = some pickupMs →
      req.dropoffDatetime = some dropoffMs →
      findVehicle store.vehicles vid = some v →
      isVehicleAvailable store.bookings vid pickupMs dropoffMs = true →
      createBooking store nowMs freshRef req =
        (CreateOutcome.serverError, store) := by
  intro store nowMs freshRef req vid pickupMs dropoffMs v h1 h2 h3 h4 h5
  simp [createBooking, h1, h2, h3, h4, h5, calculateBookingPrice]

/-- C2 witness: the concrete valid request against the one-vehicle store
ends in the internal error with the store unchanged. -/
theorem c2_createBooking_internal_error_witness :
    createBooking c2Store 0 "BOOK_R" c2Req =
      (CreateOutcome.serverError, c2Store) :=
  c2_createBooking_internal_error c2Store 0 "BOOK_R" c2Req 1 0 3600000
    c2Vehicle rfl rfl rfl rfl rfl

/-- C7: cancelling a booking whose status is neither pending_payment nor
confirmed (by a requester who passes the access check) fails with the
invalid-state error and returns the booking with every field
unchanged. -/
theorem c7_cancel_invalid_state_leaves_unchanged :
    ∀ (role : Role) (requesterId : Nat) (nowMs : Int) (reason : String)
      (b : Booking),
      (role = Role.customer → b.customer = requesterId) →
      b.status ≠ BookingStatus.pending_payment →
      b.status ≠ BookingStatus.confirmed →
      cancelBooking role requesterId nowMs reason b =
        (CancelOutcome.invalidState
          ("Booking cannot be cancelled in " ++ statusName b.status ++
            " status"), b) := by
  intro role rid nowMs reason b hacc h1 h2
  have hgate : ¬(role = Role.customer ∧ b.customer ≠ rid) := by
    rintro ⟨hr, hc⟩
    exact hc (hacc hr)
  have hst : ¬(b.status = BookingStatus.pending_payment ∨
      b.status = BookingStatus.confirmed) := by
    rintro (h | h)
    · exact h1 h
    · exact h2 h
  simp [cancelBooking, hgate, hst]

/-- A completed booking the cancel endpoint must refuse to touch. -/
def c7Booking : Booking :=
  { bookingRef := "BOOK_D", customer := 9, vendor := 1, vehicle := 1,
    pickupDatetime := 0, dropoffDatetime := 7200000,
    bookingType := BookingType.self_drive,
    status := BookingStatus.completed,
    priceBreakdown := pbZero, cancellation := none, depositRefund := none,
    notes := "" }

/-- C7 witness: cancelling the completed fixture booking yields the
invalid-state error and the untouched booking. -/
theorem c7_cancel_invalid_state_witness :
    cancelBooking Role.admin 0 0 "" c7Booking =
      (CancelOutcome.invalidState
        ("Booking cannot be cancelled in " ++ statusName c7Booking.status ++
          " status"), c7Booking) :=
  c7_cancel_invalid_state_leaves_unchanged Role.admin 0 0 "" c7Booking
    (fun h => absurd h (by decide)) (by decide) (by decide)

/-- C6: for a cancellable booking (pending_payment or confirmed, access
check passed) the cancellation fee is 50 percent of
priceBreakdown.baseAmount when the hours until pickup are below 24,
25 percent when they are at least 24 and below 48, and zero when they
are at least 48; the reported refund is totalPayable minus that fee. -/
theorem c6_cancellation_fee_tiers :
    ∀ (role : Role) (requesterId : Nat) (nowMs : Int) (reason : String)
      (b : Booking),
      (role = Role.customer → b.customer = requesterId) →
      (b.status = BookingStatus.pending_payment ∨
        b.status = BookingStatus.confirmed) →
      ((((b.pickupDatetime - nowMs : Int) : ℚ) / (1000 * 60 * 60) < 24 →
        (cancelBooking role requesterId nowMs reason b).1 =
          CancelOutcome.ok (b.priceBreakdown.baseAmount * 0.5)
            (b.priceBreakdown.totalPayable -
              b.priceBreakdown.baseAmount * 0.5)) ∧
      (24 ≤ ((b.pickupDatetime - nowMs : Int) : ℚ) / (1000 * 60 * 60) →
        ((b.pickupDatetime - nowMs : Int) : ℚ) / (1000 * 60 * 60) < 48 →
        (cancelBooking role requesterId nowMs reason b).1 =
          CancelOutcome.ok (b.priceBreakdown.baseAmount * 0.25)
            (b.priceBreakdown.totalPayable -
              b.priceBreakdown.baseAmount * 0.25)) ∧
      (48 ≤ ((b.pickupDatetime - nowMs : Int) : ℚ) / (1000 * 60 * 60) →
        (cancelBooking role requesterId nowMs reason b).1 =
          CancelOutcome.ok 0 b.priceBreakdown.totalPayable)) := by
  intro role rid nowMs reason b hacc hst
  have hgate : ¬(role = Role.customer ∧ b.customer ≠ rid) := by
    rintro ⟨hr, hc⟩
    exact hc (hacc hr)
  have hst' : ¬¬(b.status = BookingStatus.pending_payment ∨
      b.status = BookingStatus.confirmed) := not_not_intro hst
  refine ⟨fun hlt => ?_, fun h24 h48 => ?_, fun h48 => ?_⟩
  · simp only [cancelBooking, if_neg hgate, if_neg hst']
    rw [if_pos hlt]
  · simp only [cancelBooking, if_neg hgate, if_neg hst']
    rw [if_neg (not_lt.mpr h24), if_pos h48]
  · simp only [cancelBooking, if_neg hgate, if_neg hst']
    rw [if_neg (not_lt.mpr (by linarith)), if_neg (not_lt.mpr h48)]
    simp

/-- A pending_payment booking whose pickup lies 10 hours ahead of the
cancellation instant, with base amount 1000 and total 1680. -/
def c6Booking : Booking :=
  { bookingRef := "BOOK_F", customer := 1, vendor := 1, vehicle := 1,
    pickupDatetime := 36000000, dropoffDatetime := 108000000,
    bookingType := BookingType.self_drive,
    status := BookingStatus.pending_payment,
    priceBreakdown :=
      { baseAmount := 1000, driverAmount := 0, taxes := 180, discount := 0,
        deposit := 500, totalPayable := 1680, durationDays := 1,
        durationHours := 20 },
    cancellation := none, depositRefund := none, notes := "" }

/-- C6 witness: cancelling the fixture 10 hours before pickup charges
half the base amount and refunds the rest of the total. -/
theorem c6_cancellation_fee_tiers_witness :
    (cancelBooking Role.customer 1 0 "trip cancelled" c6Booking).1 =
      CancelOutcome.ok (c6Booking.priceBreakdown.baseAmount * 0.5)
        (c6Booking.priceBreakdown.totalPayable -
          c6Booking.priceBreakdown.baseAmount * 0.5) :=
  (c6_cancellation_fee_tiers Role.customer 1 0 "trip cancelled" c6Booking
    (fun _ => rfl) (Or.inl rfl)).1 (by decide)

/-- C5 amended claim: the privileged status-update endpoint applies any
requested status with no transition validation (it only enforces vendor
ownership), and the payment-verification callback sets confirmed or
pending_payment regardless of the current status — so reservations can
leave terminal states. -/
theorem c5_status_applied_unconditionally :
    (∀ (role : Role) (owns : Bool) (newStatus : BookingStatus) (nowMs : Int)
        (reason : String) (b : Booking),
        updateResultStatus
            (updateBookingStatus role owns newStatus nowMs reason b) =
          if role = Role.vendor ∧ owns = false then none else some newStatus) ∧
    (∀ (captured : Bool) (b : Booking),
        (verifyPaymentBookingUpdate captured b).status =
          if captured then BookingStatus.confirmed
          else BookingStatus.pending_payment) := by
  constructor
  · intro role owns newStatus nowMs reason b
    by_cases h : role = Role.vendor ∧ owns = false
    · simp [updateBookingStatus, updateResultStatus, h]
    · simp only [updateBookingStatus, if_neg h]
      split_ifs <;> rfl
  · intro captured b
    by_cases h : captured
    · simp [verifyPaymentBookingUpdate, h]
    · simp [verifyPaymentBookingUpdate, h]

/-- C3 amended claim: the availability check reports the vehicle
unavailable exactly when some stored reservation for it in status
confirmed, checked_out or in_progress overlaps the window —
pending_payment (and every other status) never blocks. -/
theorem c3_unavailable_iff_blocking_overlap :
    ∀ (bookings : List Booking) (vehicleId : Nat) (startMs endMs : Int),
      isVehicleAvailable bookings vehicleId startMs endMs = false ↔
        ∃ b, b ∈ bookings ∧ b.vehicle = vehicleId ∧
          (b.status = BookingStatus.confirmed ∨
            b.status = BookingStatus.checked_out ∨
            b.status = BookingStatus.in_progress) ∧
          b.pickupDatetime < endMs ∧ startMs < b.dropoffDatetime := by
  intro bookings vehicleId startMs endMs
  simp only [isVehicleAvailable, Bool.not_eq_false', List.any_eq_true,
    Bool.and_eq_true, Bool.or_eq_true, beq_iff_eq, decide_eq_true_eq,
    gt_iff_lt]
  constructor
  · rintro ⟨b, hb, h⟩
    refine ⟨b, hb, ?_⟩
    tauto
  · rintro ⟨b, hb, h⟩
    refine ⟨b, hb, ?_⟩
    tauto

/-- A confirmed overlapping booking for the C3 witness. -/
def c3Confirmed : Booking :=
  { c3Booking with
      bookingRef := "BOOK_PC"
      status := BookingStatus.confirmed }

/-- C3 witness: a confirmed overlapping reservation does make the check
report unavailable. -/
theorem c3_unavailable_iff_witness :
    isVehicleAvailable [c3Confirmed] 1 3600000 10800000 = false :=
  (c3_unavailable_iff_blocking_overlap [c3Confirmed] 1 3600000 10800000).mpr
    ⟨c3Confirmed, by simp, rfl, Or.inl rfl, by decide, by decide⟩

/-- C4 amended claim: reservations are tested with the strict half-open
intersection (touching boundaries never conflict, a strict overlap on an
active reservation always does), but vendor blackout blocks are tested
inclusively — a block merely touching the window boundary already counts
as a conflict. -/
theorem c4_overlap_test_shapes :
    (∀ (b : Booking) (vehicleId : Nat) (startMs endMs : Int),
        b.dropoffDatetime = startMs ∨ b.pickupDatetime = endMs →
        isVehicleAvailable [b] vehicleId startMs endMs = true) ∧
    (∀ (b : Booking) (vehicleId : Nat) (startMs endMs : Int),
        b.vehicle = vehicleId →
        (b.status = BookingStatus.confirmed ∨
          b.status = BookingStatus.checked_out ∨
          b.status = BookingStatus.in_progress) →
        b.pickupDatetime < endMs → startMs < b.dropoffDatetime →
        isVehicleAvailable [b] vehicleId startMs endMs = false) ∧
    (∀ (blk : AvailabilityBlock) (pickupMs dropoffMs : Int),
        blk.endMs = pickupMs → blk.start ≤ dropoffMs →
        hasAvailabilityBlock [blk] pickupMs dropoffMs = true) := by
  refine ⟨?_, ?_, ?_⟩
  · intro b vehicleId startMs endMs h
    rcases h with h | h <;> simp [isVehicleAvailable, h]
  · intro b vehicleId startMs endMs hv hs hp hd
    simp only [isVehicleAvailable, List.any_cons, List.any_nil,
      Bool.or_false, Bool.not_eq_false', Bool.and_eq_true, Bool.or_eq_true,
      beq_iff_eq, decide_eq_true_eq, gt_iff_lt]
    refine ⟨⟨hv, ?_⟩, hp, hd⟩
    tauto
  · intro blk pickupMs dropoffMs hend hstart
    simp only [hasAvailabilityBlock, List.any_cons, List.any_nil,
      Bool.or_false, Bool.and_eq_true, decide_eq_true_eq, ge_iff_le]
    exact ⟨hstart, le_of_eq hend.symm⟩

/-- C4 witness: the inclusive blackout test at the concrete fixture
block that ends exactly at the pickup instant. -/
theorem c4_overlap_test_shapes_witness :
    hasAvailabilityBlock [c4Block] 0 3600000 = true :=
  c4_overlap_test_shapes.2.2 c4Block 0 3600000 rfl (by decide)

/-- Duration in hours computed by computePrice, as the source computes
it. -/
theorem computePrice_durationHours (pricing : VehiclePricing)
    (pickupMs dropoffMs : Int) (withDriver : Bool)
    (promo : Option PromoCode) :
    (computePrice pricing pickupMs dropoffMs withDriver promo).durationHours =
      jsCeil (((dropoffMs - pickupMs : Int) : ℚ) / (1000 * 60 * 60)) := rfl

/-- C8 amended claim: the price computation performs no window
validation — whenever the required fields are present and the vehicle
exists, it returns a success breakdown even for a non-positive duration,
whose reported durationHours is then non-positive. -/
theorem c8_no_window_validation :
    ∀ (vehicles : List Vehicle) (promos : List PromoCode) (nowMs : Int)
      (body : PriceBody) (vid : Nat) (pickupMs dropoffMs : Int)
      (v : Vehicle),
      body.vehicleId = some vid →
      body.pickupDateTime = some pickupMs →
      body.dropoffDateTime = some dropoffMs →
      findVehicle vehicles vid = some v →
      dropoffMs ≤ pickupMs →
      ∃ bd promoFound,
        calculateBookingPrice vehicles promos nowMs (some body) =
          PriceOutcome.ok bd promoFound ∧ bd.durationHours ≤ 0 := by
  intro vehicles promos nowMs body vid pickupMs dropoffMs v h1 h2 h3 h4 hle
  have hdur : ∀ (wd : Bool) (promo : Option PromoCode),
      (computePrice v.pricing pickupMs dropoffMs wd promo).durationHours ≤ 0 := by
    intro wd promo
    rw [computePrice_durationHours]
    have hnum : ((dropoffMs - pickupMs : Int) : ℚ) ≤ 0 := by
      exact_mod_cast sub_nonpos.mpr hle
    have hq : ((dropoffMs - pickupMs : Int) : ℚ) / (1000 * 60 * 60) ≤ 0 :=
      div_nonpos_of_nonpos_of_nonneg hnum (by norm_num)
    exact Int.ceil_le.mpr (by exact_mod_cast hq)
  have heq : calculateBookingPrice vehicles promos nowMs (some body) =
      PriceOutcome.ok
        (computePrice v.pricing pickupMs dropoffMs
          ((body.bookingType == BookingType.with_driver) || body.driverRequired)
          (match body.promoCode with
            | some code => findPromo promos code nowMs
            | none => none))
        (match body.promoCode with
          | some code => findPromo promos code nowMs
          | none => none) := by
    simp only [calculateBookingPrice, h1, h2, h3, h4]
  exact ⟨_, _, heq, hdur _ _⟩

/-- A pricing request with a reversed window (pickup after dropoff). -/
def c8Body2 : PriceBody :=
  { c8Body with
      pickupDateTime := some 3600000
      dropoffDateTime := some 0 }

/-- C8 amended witness: the reversed-window request still gets a success
breakdown, with non-positive duration. -/
theorem c8_no_window_validation_witness :
    ∃ bd promoFound,
      calculateBookingPrice [c8Vehicle] [] 0 (some c8Body2) =
        PriceOutcome.ok bd promoFound ∧ bd.durationHours ≤ 0 :=
  c8_no_window_validation [c8Vehicle] [] 0 c8Body2 1 3600000 0 c8Vehicle
    rfl rfl rfl rfl (by decide)

/-- C9 amended claim: the promo discount is subtracted from the grand
total with no clamp at zero — whenever a flat discount exceeds the gross
total by at least one currency unit, the stored totalPayable is strictly
negative. -/
theorem c9_discount_not_clamped :
    ∀ (pricing : VehiclePricing) (pickupMs dropoffMs : Int)
      (withDriver : Bool) (pc : PromoCode),
      pc.discountType = DiscountType.flat →
      grossTotal pricing pickupMs dropoffMs withDriver + 1 ≤ pc.discountValue →
      (computePrice pricing pickupMs dropoffMs withDriver
          (some pc)).totalPayable < 0 := by
  intro pricing pickupMs dropoffMs withDriver pc hflat hge
  obtain ⟨code, act, vf, vt, dt, dv, mda⟩ := pc
  dsimp only at hflat hge
  subst hflat
  have h2 : jsRound
      (grossTotal pricing pickupMs dropoffMs withDriver - dv) < 0 := by
    have hx : grossTotal pricing pickupMs dropoffMs withDriver - dv + 1 / 2 <
        ((0 : Int) : ℚ) := by
      push_cast
      linarith
    have := Int.floor_lt.mpr hx
    simpa [jsRound] using this
  show ((jsRound
      (grossTotal pricing pickupMs dropoffMs withDriver - dv) : Int) : ℚ) < 0
  exact_mod_cast h2

/-- C9 amended witness: the fixture flat promotion exceeds the one-day
gross total by far more than one unit, so the total goes negative. -/
theorem c9_discount_not_clamped_witness :
    (computePrice c9Pricing 0 86400000 false (some c9Promo)).totalPayable < 0 :=
  c9_discount_not_clamped c9Pricing 0 86400000 false c9Promo rfl (by decide)

/-- Rate card with dailyRate 1000 and a 20 percent weekly discount. -/
def c10Pricing : VehiclePricing :=
  { baseDaily := 1000, weeklyDiscountPercent := 20,
    monthlyDiscountPercent := 0, extraHourCharge := 0, depositAmount := 0 }

/-- C10: the price is not monotone in the duration — with dailyRate 1000
and weeklyDiscountPercent 20, a 7-day window yields baseAmount 5600,
strictly below the 6000 of a 6-day window; and for every whole-day
duration with 7 <= days < 30 under a positive weekly discount the
baseAmount is the constant weekly price
dailyRate * 7 * (1 - weeklyDiscountPercent / 100). -/
theorem c10_weekly_tier_constant :
    ((computePrice c10Pricing 0 (7 * 86400000) false none).baseAmount = 5600 ∧
      (computePrice c10Pricing 0 (6 * 86400000) false none).baseAmount = 6000 ∧
      (5600 : ℚ) < 6000) ∧
    ∀ (p : VehiclePricing) (d : Int), 7 ≤ d → d < 30 →
      0 < p.weeklyDiscountPercent →
      (computePrice p 0 (d * 86400000) false none).baseAmount =
        p.baseDaily * 7 - p.baseDaily * 7 * (p.weeklyDiscountPercent / 100) := by
  constructor
  · exact ⟨by decide, by decide, by decide⟩
  · intro p d h7 h30 hw
    have hhours : jsCeil (((d * 86400000 - 0 : Int) : ℚ) / (1000 * 60 * 60)) =
        24 * d := by
      have hms : ((d * 86400000 - 0 : Int) : ℚ) / (1000 * 60 * 60) =
          ((24 * d : Int) : ℚ) := by
        push_cast
        ring
      rw [hms, jsCeil, Int.ceil_intCast]
    have hdays : jsCeil (((24 * d : Int) : ℚ) / 24) = d := by
      have hq : ((24 * d : Int) : ℚ) / 24 = ((d : Int) : ℚ) := by
        push_cast
        ring
      rw [hq, jsCeil, Int.ceil_intCast]
    have hmod : jsMod (24 * d) 24 = 0 := by
      have h0 : (0 : Int) ≤ 24 * d := by omega
      simp only [jsMod, if_pos h0]
      omega
    simp only [computePrice]
    rw [hhours, hdays, hmod]
    have hx1 : ¬((0 : Int) < 0 ∧ 0 < p.extraHourCharge) :=
      fun h => absurd h.1 (lt_irrefl 0)
    have hx2 : ¬(30 ≤ d ∧ 0 < p.monthlyDiscountPercent) :=
      fun h => absurd h.1 (by omega)
    rw [if_neg hx1, if_neg hx2, if_pos ⟨h7, hw⟩]

/-- C10 witness: a 9-day window is billed the same constant weekly
price. -/
theorem c10_weekly_tier_constant_witness :
    (computePrice c10Pricing 0 (9 * 86400000) false none).baseAmount =
      c10Pricing.baseDaily * 7 -
        c10Pricing.baseDaily * 7 * (c10Pricing.weeklyDiscountPercent / 100) :=
  c10_weekly_tier_constant.2 c10Pricing 9 (by decide) (by decide) (by decide)

end VehicleRental
